import Mathlib

/-!
Shallow embedding of `src/source/filters/filter-virtual-greenscreen.cpp`
(the StreamFX "Virtual Greenscreen" filter).

The embedding models the per-instance state of `virtual_greenscreen_instance`
and its operations (`update`, `switch_provider`, `task_switch_provider`,
`video_tick`, `video_render`, the destructor) as pure functions on an explicit
state record.  Host-side conditions (render target presence and size, whether
`obs_source_process_filter_begin` succeeds, whether provider calls throw, and
which providers the factory found available) are collected into an environment
record.  Each operation additionally returns the list of externally observable
events it performs (adapter unload/load/configure calls, capture draws,
provider process invocations, composite draws, filter skips, error logs).

The threadpool is modelled as a per-instance queue (`pool`) of not-yet-started
switch tasks together with the instance's task handle (`provider_task`);
running a queued task is an explicit scheduler step (`run_task`), so arbitrary
interleavings of host calls and task execution are the traces of the step
function `vgStep`.  `streamfx::threadpool()->pop` followed by
`await_completion` on a task that has not started cancels it (the body never
runs); a task that already ran corresponds to a `run_task` step having been
scheduled earlier, so both real interleavings are covered.

C++ destructors are `noexcept`, so `nvvfxgs_unload` (a `shared_ptr::reset`)
is modelled as non-throwing; `nvvfxgs_load` (constructs the NVIDIA effect)
and `set_mode` (configuration re-apply) may throw, controlled by the
environment.
-/

set_option linter.unusedVariables false

namespace VirtualGreenscreen

/-- The provider kind enumeration `virtual_greenscreen_provider`.
Modelled from the spec: the enum itself is declared in the missing header
`filter-virtual-greenscreen.hpp`; the spec lists the kinds
{Invalid, Automatic, concrete providers}, and the only concrete provider
in the source is NVIDIA Greenscreen. -/
inductive VGProvider
  | INVALID
  | AUTOMATIC
  | NVIDIA_GREENSCREEN
deriving DecidableEq, Repr

/-- Persisted configuration record (the `obs_data_t` settings ultimately read
through `obs_data_get_int`).  Modelled from the spec: "a persisted
configuration record containing the selected provider kind (or Automatic) and
provider-specific options (e.g., a quality/performance mode integer)"; the
stored integer is cast unchecked to the provider enum, so any kind, including
Invalid, can occur in stored settings. -/
structure VGSettings where
  provider : VGProvider
  mode : Int
deriving DecidableEq, Repr

/-- Texture references observable through `_output_color` / `_output_alpha`:
the instance-owned input rendertarget's texture, or the NVIDIA effect's own
color / alpha buffers returned by `process` / `get_color`. -/
inductive Tex
  | inputTex
  | nvColor
  | nvAlpha
deriving DecidableEq, Repr

/-- Externally observable events of one operation. -/
inductive VGEvent
  | unload (p : VGProvider)
  | load (p : VGProvider)
  | configure (d : VGSettings)
  | logError
  | skipFilter
  | captureDraw
  | adapterProcess
  | compositeDraw
deriving DecidableEq, Repr

/-- Per-instance state of `virtual_greenscreen_instance`.  `pool` is the list
of this instance's queued (not yet started) switch tasks in the threadpool,
each tagged with a fresh id; `provider_task` is the `_provider_task` handle
(the id of the most recently pushed task, until `reset`). -/
structure VGState where
  size : Nat × Nat
  provider : VGProvider
  provider_ui : VGProvider
  provider_ready : Bool
  provider_task : Option Nat
  pool : List (Nat × VGProvider)
  next_task_id : Nat
  dirty : Bool
  nvidia_fx : Bool
  nvidia_mode : Int
  nvidia_size : Nat × Nat
  output_color : Tex
  output_alpha : Tex
  settings : VGSettings
deriving DecidableEq, Repr

/-- Host / hardware environment for one operation. -/
structure VGEnv where
  nvidia_available : Bool
  load_throws : Bool
  set_mode_throws : Bool
  has_target : Bool
  has_parent : Bool
  target_width : Nat
  target_height : Nat
  capture_begin_ok : Bool
  process_throws : Bool
deriving DecidableEq, Repr

/-- Constructor state (`virtual_greenscreen_instance::virtual_greenscreen_instance`,
lines 93-135): `_size(1, 1)`, `_provider(INVALID)`, `_provider_ui(INVALID)`,
`_provider_ready(false)`, empty task, `_dirty(true)`, and
`_output_color = _output_alpha = _input->get_texture()`.  The trailing
`load(data)` call (which forwards to `update`) is a separate step. -/
def initState (d : VGSettings) : VGState where
  size := (1, 1)
  provider := .INVALID
  provider_ui := .INVALID
  provider_ready := false
  provider_task := none
  pool := []
  next_task_id := 0
  dirty := true
  nvidia_fx := false
  nvidia_mode := 0
  nvidia_size := (0, 0)
  output_color := .inputTex
  output_alpha := .inputTex
  settings := d

/-- `nvvfxgs_unload` (line 465): `_nvidia_fx.reset()`. -/
def nvvfxgs_unload (s : VGState) : VGState := { s with nvidia_fx := false }

/-- `nvvfxgs_update` (line 507): no-op when `_nvidia_fx` is null, otherwise
`set_mode` with the mode read from the given settings; `set_mode` may throw
(second component is the success flag). -/
def nvvfxgs_update (env : VGEnv) (d : VGSettings) (s : VGState) : VGState × Bool :=
  if s.nvidia_fx then
    if env.set_mode_throws then (s, false)
    else ({ s with nvidia_mode := d.mode }, true)
  else (s, true)

/-- `virtual_greenscreen_factory::find_ideal_provider` (line 656): first
available kind in `provider_priority = [NVIDIA_GREENSCREEN]`, else AUTOMATIC. -/
def find_ideal_provider (env : VGEnv) : VGProvider :=
  if env.nvidia_available then .NVIDIA_GREENSCREEN else .AUTOMATIC

/-- The first statement of `task_switch_provider` (line 414):
`_provider_ready = false`, executed before the provider lock is taken. -/
def mark_unready (s : VGState) : VGState := { s with provider_ready := false }

/-- The body of `task_switch_provider` under the provider lock (lines 417-456):
unload the previous provider (`spd->provider`), load the new `_provider`, and
on the NVIDIA path re-apply the source's current settings
(`obs_source_get_settings`).  Returns the state, the emitted events, and
whether the `try` block completed without throwing. -/
def task_locked_body (env : VGEnv) (spd : VGProvider) (s : VGState) :
    VGState × List VGEvent × Bool :=
  let s1 := if spd = .NVIDIA_GREENSCREEN then nvvfxgs_unload s else s
  let ev1 := if spd = .NVIDIA_GREENSCREEN then [VGEvent.unload .NVIDIA_GREENSCREEN] else []
  match s1.provider with
  | .NVIDIA_GREENSCREEN =>
    if env.load_throws then (s1, ev1, false)
    else
      let s2 := { s1 with nvidia_fx := true }
      let ev2 := ev1 ++ [VGEvent.load .NVIDIA_GREENSCREEN]
      let r := nvvfxgs_update env s2.settings s2
      if r.2 then (r.1, ev2 ++ [VGEvent.configure s2.settings], true)
      else (r.1, ev2, false)
  | _ => (s1, ev1, true)

/-- `task_switch_provider` (lines 408-457): mark the provider not ready, run
the locked unload/load/configure sequence; on success set
`_provider_ready = true`, on an exception log the error and leave it false. -/
def task_switch_provider (env : VGEnv) (spd : VGProvider) (s : VGState) :
    VGState × List VGEvent :=
  let s0 := mark_unready s
  let r := task_locked_body env spd s0
  if r.2.2 then ({ r.1 with provider_ready := true }, r.2.1)
  else (r.1, r.2.1 ++ [VGEvent.logError])

/-- `switch_provider` (lines 368-406): under the provider lock, return at once
when the requested kind equals `_provider`; otherwise pop and await any
existing task (removing it from the pool; a queued task is cancelled without
running, a task that already ran corresponds to an earlier `run_task` step),
reset the handle, record the old kind as the task payload, set `_provider` to
the requested kind, and push a fresh task. -/
def switch_provider (provider : VGProvider) (s : VGState) : VGState × List VGEvent :=
  if provider = s.provider then (s, [])
  else
    let s1 :=
      match s.provider_task with
      | some id => { s with pool := s.pool.filter (fun t => t.1 != id), provider_task := none }
      | none => s
    let spd := s1.provider
    let s2 := { s1 with provider := provider }
    ({ s2 with
        pool := s2.pool ++ [(s2.next_task_id, spd)]
        provider_task := some s2.next_task_id
        next_task_id := s2.next_task_id + 1 }, [])

/-- Scheduler step: the threadpool starts the oldest queued task of this
instance and runs it to completion. -/
def run_task (env : VGEnv) (s : VGState) : VGState × List VGEvent :=
  match s.pool with
  | [] => (s, [])
  | t :: rest => task_switch_provider env t.2 { s with pool := rest }

/-- `update` (lines 171-199): read the selected provider kind from the
settings, resolve AUTOMATIC through `find_ideal_provider`, switch when it
differs from `_provider` (recording it as `_provider_ui` first), and when the
provider is ready forward the settings to the active provider
(`nvvfxgs_update`; an exception there propagates to the caller, leaving the
state effects made so far). -/
def update (env : VGEnv) (d : VGSettings) (s : VGState) : VGState × List VGEvent :=
  let s0 := { s with settings := d }
  let provider0 := d.provider
  let provider := if provider0 = .AUTOMATIC then find_ideal_provider env else provider0
  let r1 :=
    if provider ≠ s0.provider then
      switch_provider provider { s0 with provider_ui := provider }
    else (s0, [])
  if r1.1.provider_ready then
    match r1.1.provider with
    | .NVIDIA_GREENSCREEN => ((nvvfxgs_update env d r1.1).1, r1.2)
    | _ => r1
  else r1

/-- `video_tick` (lines 224-247): store the target's base size in `_size`,
let a ready NVIDIA provider restrict the size, and set `_dirty = true`
unconditionally. -/
def video_tick (env : VGEnv) (s : VGState) : VGState × List VGEvent :=
  let width := if env.has_target then env.target_width else 0
  let height := if env.has_target then env.target_height else 0
  let sA := { s with size := (width, height) }
  let sB :=
    if env.has_target && sA.provider_ready then
      match sA.provider with
      | .NVIDIA_GREENSCREEN => if sA.nvidia_fx then { sA with nvidia_size := sA.size } else sA
      | _ => sA
    else sA
  ({ sB with dirty := true }, [])

/-- `video_render` (lines 249-362): skip (pass-through) when the provider is
not ready, there is neither target nor parent, or the target's base width or
height is zero.  When dirty: capture the incoming frame if
`obs_source_process_filter_begin` succeeds (else skip), republish the input
texture as color and alpha, run the provider's `process` (an exception skips
the frame, leaving `_dirty` set), and on success clear `_dirty`.  Every
non-skipped call ends with the composite draw. -/
def video_render (env : VGEnv) (s : VGState) : VGState × List VGEvent :=
  let width := if env.has_target then env.target_width else 0
  let height := if env.has_target then env.target_height else 0
  let targetOk := env.has_target || env.has_parent
  if !s.provider_ready || !targetOk || width == 0 || height == 0 then
    (s, [VGEvent.skipFilter])
  else if s.dirty then
    if env.capture_begin_ok then
      let sA := { s with output_color := Tex.inputTex, output_alpha := Tex.inputTex }
      match sA.provider with
      | .NVIDIA_GREENSCREEN =>
        if sA.nvidia_fx then
          if env.process_throws then (sA, [VGEvent.captureDraw, VGEvent.skipFilter])
          else ({ sA with output_alpha := Tex.nvAlpha, output_color := Tex.nvColor, dirty := false },
                [VGEvent.captureDraw, VGEvent.adapterProcess, VGEvent.compositeDraw])
        else ({ sA with dirty := false }, [VGEvent.captureDraw, VGEvent.compositeDraw])
      | _ => ({ sA with dirty := false }, [VGEvent.captureDraw, VGEvent.compositeDraw])
    else (s, [VGEvent.skipFilter])
  else (s, [VGEvent.compositeDraw])

/-- `~virtual_greenscreen_instance` (lines 137-162): pop and await any
existing task, reset the handle, then synchronously unload the active
provider. -/
def destroy (s : VGState) : VGState × List VGEvent :=
  let s1 :=
    match s.provider_task with
    | some id => { s with pool := s.pool.filter (fun t => t.1 != id), provider_task := none }
    | none => s
  match s1.provider with
  | .NVIDIA_GREENSCREEN => (nvvfxgs_unload s1, [VGEvent.unload .NVIDIA_GREENSCREEN])
  | _ => (s1, [])

/-- The operations the host or the threadpool scheduler may perform on one
instance. -/
inductive VGOp
  | updateOp (d : VGSettings)
  | switchProviderOp (p : VGProvider)
  | runTaskOp
  | tickOp
  | renderOp
  | destroyOp
deriving DecidableEq, Repr

/-- One step of an instance's history. -/
def vgStep (env : VGEnv) (op : VGOp) (s : VGState) : VGState × List VGEvent :=
  match op with
  | .updateOp d => update env d s
  | .switchProviderOp p => switch_provider p s
  | .runTaskOp => run_task env s
  | .tickOp => video_tick env s
  | .renderOp => video_render env s
  | .destroyOp => destroy s

/-- States reachable from a freshly constructed instance by any interleaving
of host calls and task executions, under arbitrary environments. -/
inductive VGReachable (d : VGSettings) : VGState → Prop
  | init : VGReachable d (initState d)
  | step (env : VGEnv) (op : VGOp) (s : VGState) :
      VGReachable d s → VGReachable d (vgStep env op s).1

/-- An operation is benign when it is not a switch request targeting the
INVALID sentinel (neither directly nor through settings whose stored provider
kind is INVALID). -/
def benign : VGOp → Prop
  | .switchProviderOp p => p ≠ .INVALID
  | .updateOp d => d.provider ≠ .INVALID
  | _ => True

/-- Reachability restricted to benign operations. -/
inductive VGReachableB (d : VGSettings) : VGState → Prop
  | init : VGReachableB d (initState d)
  | step (env : VGEnv) (op : VGOp) (s : VGState) :
      benign op → VGReachableB d s → VGReachableB d (vgStep env op s).1

/-- `true` when no `load` event in the list is preceded by the tail containing
an `unload`: every unload happens before every load. -/
def hasUnloadEv : List VGEvent → Bool
  | [] => false
  | VGEvent.unload _ :: _ => true
  | _ :: r => hasUnloadEv r

/-- Every `unload` event precedes every `load` event. -/
def unloadBeforeLoad : List VGEvent → Bool
  | [] => true
  | VGEvent.load _ :: r => !hasUnloadEv r && unloadBeforeLoad r
  | _ :: r => unloadBeforeLoad r

/-- Success condition of the switch task's try-block, read off the source
branches: the non-NVIDIA load path cannot throw; the NVIDIA path fails iff
the load or the configuration re-apply throws. -/
def task_success (env : VGEnv) (s : VGState) : Bool :=
  match s.provider with
  | .NVIDIA_GREENSCREEN => !env.load_throws && !env.set_mode_throws
  | _ => true

/-- The pool discipline maintained by the instance: at most one queued task,
and every queued task is the one the handle points to. -/
def poolInv (s : VGState) : Prop :=
  s.pool.length ≤ 1 ∧ ∀ t ∈ s.pool, s.provider_task = some t.1

/-- The spec invariant: a state whose current provider is the INVALID sentinel
is never marked ready; strengthened with "no task is queued then" to make it
inductive. -/
def invalidInv (s : VGState) : Prop :=
  s.provider = .INVALID → (s.provider_ready = false ∧ s.pool = [])

section Helpers

set_option linter.unnecessarySeqFocus false

theorem task_fields (env : VGEnv) (spd : VGProvider) (s : VGState) :
    (task_switch_provider env spd s).1.pool = s.pool ∧
    (task_switch_provider env spd s).1.provider_task = s.provider_task ∧
    (task_switch_provider env spd s).1.provider = s.provider ∧
    (task_switch_provider env spd s).1.settings = s.settings := by
  simp only [task_switch_provider, task_locked_body, mark_unready, nvvfxgs_unload,
    nvvfxgs_update]
  repeat' split
  all_goals simp_all

theorem tick_fields (env : VGEnv) (s : VGState) :
    (video_tick env s).1.pool = s.pool ∧
    (video_tick env s).1.provider_task = s.provider_task ∧
    (video_tick env s).1.provider = s.provider ∧
    (video_tick env s).1.provider_ready = s.provider_ready ∧
    (video_tick env s).1.nvidia_fx = s.nvidia_fx ∧
    (video_tick env s).1.settings = s.settings ∧
    (video_tick env s).1.dirty = true := by
  simp only [video_tick]
  repeat' split
  all_goals simp_all

theorem render_fields (env : VGEnv) (s : VGState) :
    (video_render env s).1.pool = s.pool ∧
    (video_render env s).1.provider_task = s.provider_task ∧
    (video_render env s).1.provider = s.provider ∧
    (video_render env s).1.provider_ready = s.provider_ready ∧
    (video_render env s).1.nvidia_fx = s.nvidia_fx ∧
    (video_render env s).1.settings = s.settings := by
  simp only [video_render]
  repeat' split
  all_goals simp_all

theorem switch_fields (p : VGProvider) (s : VGState) :
    (switch_provider p s).1.provider_ready = s.provider_ready ∧
    (switch_provider p s).1.nvidia_fx = s.nvidia_fx ∧
    (switch_provider p s).1.settings = s.settings ∧
    (switch_provider p s).1.dirty = s.dirty := by
  simp only [switch_provider]
  repeat' split
  all_goals simp_all

theorem switch_provider_eq_of_ne (p : VGProvider) (s : VGState) (h : p ≠ s.provider) :
    (switch_provider p s).1.provider = p := by
  simp only [switch_provider]
  repeat' split
  all_goals simp_all

theorem poolInv_of_eq {s s2 : VGState} (hp : s2.pool = s.pool)
    (ht : s2.provider_task = s.provider_task) (h : poolInv s) : poolInv s2 := by
  obtain ⟨h1, h2⟩ := h
  exact ⟨hp ▸ h1, fun t htm => by rw [ht]; exact h2 t (hp ▸ htm)⟩

theorem filter_handle_nil {s : VGState} {id : Nat}
    (h2 : ∀ t ∈ s.pool, s.provider_task = some t.1) (ht : s.provider_task = some id) :
    s.pool.filter (fun t => t.1 != id) = [] := by
  rw [List.filter_eq_nil_iff]
  intro a ha
  have h3 := h2 a ha
  rw [ht] at h3
  simp only [Option.some.injEq] at h3
  simp [h3]

theorem pool_nil_of_no_handle {s : VGState}
    (h2 : ∀ t ∈ s.pool, s.provider_task = some t.1) (ht : s.provider_task = none) :
    s.pool = [] := by
  cases hpool : s.pool with
  | nil => rfl
  | cons a l =>
    have h3 := h2 a (by rw [hpool]; exact List.mem_cons_self a l)
    rw [ht] at h3
    exact absurd h3 (by simp)

theorem switch_poolInv (p : VGProvider) (s : VGState) (h : poolInv s) :
    poolInv (switch_provider p s).1 := by
  obtain ⟨h1, h2⟩ := h
  simp only [switch_provider]
  split
  · exact ⟨h1, h2⟩
  · cases ht : s.provider_task with
    | some id =>
      have hf := filter_handle_nil h2 ht
      simp only [ht, poolInv]
      rw [hf]
      simp
    | none =>
      have hf := pool_nil_of_no_handle h2 ht
      simp only [ht, poolInv]
      rw [hf]
      simp

theorem run_task_poolInv (env : VGEnv) (s : VGState) (h : poolInv s) :
    poolInv (run_task env s).1 := by
  obtain ⟨h1, h2⟩ := h
  cases hp : s.pool with
  | nil =>
    simp only [run_task, hp]
    exact ⟨h1, h2⟩
  | cons t rest =>
    have hrest : rest = [] := by
      rw [hp] at h1
      simpa using h1
    simp only [run_task, hp]
    have hf := task_fields env t.2 { s with pool := rest }
    refine poolInv_of_eq hf.1 hf.2.1 ?_
    subst hrest
    exact ⟨by simp, by simp⟩

theorem nvvfxgs_update_fields (env : VGEnv) (d : VGSettings) (s : VGState) :
    (nvvfxgs_update env d s).1.pool = s.pool ∧
    (nvvfxgs_update env d s).1.provider_task = s.provider_task ∧
    (nvvfxgs_update env d s).1.provider = s.provider ∧
    (nvvfxgs_update env d s).1.provider_ready = s.provider_ready := by
  simp only [nvvfxgs_update]
  repeat' split
  all_goals simp_all

theorem update_poolInv (env : VGEnv) (d : VGSettings) (s : VGState) (h : poolInv s) :
    poolInv (update env d s).1 := by
  simp only [update]
  repeat' split
  all_goals
    first
      | exact poolInv_of_eq rfl rfl h
      | exact switch_poolInv _ _ (poolInv_of_eq rfl rfl h)
      | exact poolInv_of_eq (nvvfxgs_update_fields env d _).1
          (nvvfxgs_update_fields env d _).2.1 (switch_poolInv _ _ (poolInv_of_eq rfl rfl h))
      | exact poolInv_of_eq (nvvfxgs_update_fields env d _).1
          (nvvfxgs_update_fields env d _).2.1 (poolInv_of_eq rfl rfl h)

theorem destroy_poolInv (s : VGState) (h : poolInv s) : poolInv (destroy s).1 := by
  obtain ⟨h1, h2⟩ := h
  simp only [destroy, nvvfxgs_unload]
  cases ht : s.provider_task with
  | some id =>
    have hf := filter_handle_nil h2 ht
    simp only [ht]
    split
    · simp only [poolInv]
      rw [hf]
      simp
    · simp only [poolInv]
      rw [hf]
      simp
  | none =>
    have hpool := pool_nil_of_no_handle h2 ht
    simp only [ht]
    split
    · simp only [poolInv]
      rw [hpool]
      simp
    · simp only [poolInv]
      rw [hpool]
      simp

theorem reachable_poolInv (d : VGSettings) (s : VGState) (h : VGReachable d s) :
    poolInv s := by
  induction h with
  | init => exact ⟨by simp [initState], by simp [initState]⟩
  | step env op s hs ih =>
    cases op with
    | updateOp d2 => exact update_poolInv env d2 s ih
    | switchProviderOp p => exact switch_poolInv p s ih
    | runTaskOp => exact run_task_poolInv env s ih
    | tickOp =>
      have hf := tick_fields env s
      exact poolInv_of_eq hf.1 hf.2.1 ih
    | renderOp =>
      have hf := render_fields env s
      exact poolInv_of_eq hf.1 hf.2.1 ih
    | destroyOp => exact destroy_poolInv s ih

theorem find_ideal_ne_invalid (env : VGEnv) : find_ideal_provider env ≠ VGProvider.INVALID := by
  simp only [find_ideal_provider]
  split <;> simp

theorem switch_provider_self (p : VGProvider) (s : VGState) (h : p = s.provider) :
    switch_provider p s = (s, []) := by
  simp only [switch_provider, if_pos h]

theorem update_provider_eq (env : VGEnv) (d : VGSettings) (s : VGState) :
    (update env d s).1.provider =
      (if d.provider = VGProvider.AUTOMATIC then find_ideal_provider env else d.provider) := by
  simp only [update]
  repeat' split
  all_goals
    simp_all [switch_provider_eq_of_ne, nvvfxgs_update_fields, switch_fields]

theorem destroy_fields (s : VGState) :
    (destroy s).1.provider = s.provider ∧
    (destroy s).1.provider_ready = s.provider_ready ∧
    (s.pool = [] → (destroy s).1.pool = []) := by
  simp only [destroy, nvvfxgs_unload]
  repeat' split
  all_goals simp_all

theorem update_invalidInv (env : VGEnv) (d : VGSettings) (s : VGState)
    (hd : d.provider ≠ VGProvider.INVALID) (h : invalidInv s) :
    invalidInv (update env d s).1 := by
  intro hp
  exfalso
  rw [update_provider_eq env d s] at hp
  by_cases ha : d.provider = VGProvider.AUTOMATIC
  · rw [if_pos ha] at hp
    exact find_ideal_ne_invalid env hp
  · rw [if_neg ha] at hp
    exact hd hp

theorem switch_invalidInv (p : VGProvider) (s : VGState)
    (hp : p ≠ VGProvider.INVALID) (h : invalidInv s) :
    invalidInv (switch_provider p s).1 := by
  by_cases he : p = s.provider
  · rw [switch_provider_self p s he]
    exact h
  · intro hinv
    exfalso
    rw [switch_provider_eq_of_ne p s he] at hinv
    exact hp hinv

theorem run_task_invalidInv (env : VGEnv) (s : VGState) (h : invalidInv s) :
    invalidInv (run_task env s).1 := by
  cases hp : s.pool with
  | nil =>
    simp only [run_task, hp]
    exact h
  | cons t rest =>
    intro hinv
    exfalso
    simp only [run_task, hp] at hinv
    have hf := task_fields env t.2 { s with pool := rest }
    rw [hf.2.2.1] at hinv
    have := (h hinv).2
    rw [hp] at this
    exact absurd this (by simp)

theorem destroy_invalidInv (s : VGState) (h : invalidInv s) :
    invalidInv (destroy s).1 := by
  intro hinv
  have hf := destroy_fields s
  rw [hf.1] at hinv
  obtain ⟨hr, hpool⟩ := h hinv
  exact ⟨hf.2.1.trans hr, hf.2.2 hpool⟩

theorem reachableB_invalidInv (d : VGSettings) (s : VGState) (h : VGReachableB d s) :
    invalidInv s := by
  induction h with
  | init => intro _; exact ⟨rfl, rfl⟩
  | step env op s hb hs ih =>
    cases op with
    | updateOp d2 => exact update_invalidInv env d2 s hb ih
    | switchProviderOp p => exact switch_invalidInv p s hb ih
    | runTaskOp => exact run_task_invalidInv env s ih
    | tickOp =>
      intro hinv
      simp only [vgStep] at hinv ⊢
      have hf := tick_fields env s
      rw [hf.2.2.1] at hinv
      obtain ⟨hr, hpool⟩ := ih hinv
      exact ⟨hf.2.2.2.1.trans hr, hf.1.trans hpool⟩
    | renderOp =>
      intro hinv
      simp only [vgStep] at hinv ⊢
      have hf := render_fields env s
      rw [hf.2.2.1] at hinv
      obtain ⟨hr, hpool⟩ := ih hinv
      exact ⟨hf.2.2.2.1.trans hr, hf.1.trans hpool⟩
    | destroyOp => exact destroy_invalidInv s ih

theorem render_not_dirty (env : VGEnv) (s : VGState) (hr : s.provider_ready = true)
    (ht : env.has_target = true) (hw : env.target_width ≠ 0) (hh : env.target_height ≠ 0)
    (hd : s.dirty = false) :
    video_render env s = (s, [VGEvent.compositeDraw]) := by
  simp only [video_render]
  simp [hr, ht, hw, hh, hd]

theorem render_dirty_success_nvidia (env : VGEnv) (s : VGState)
    (hr : s.provider_ready = true) (ht : env.has_target = true) (hw : env.target_width ≠ 0)
    (hh : env.target_height ≠ 0) (hd : s.dirty = true) (hc : env.capture_begin_ok = true)
    (hnv : s.provider = VGProvider.NVIDIA_GREENSCREEN) (hfx : s.nvidia_fx = true)
    (hp : env.process_throws = false) :
    (video_render env s).2 = [VGEvent.captureDraw, VGEvent.adapterProcess, VGEvent.compositeDraw] ∧
    (video_render env s).1.dirty = false := by
  simp only [video_render]
  simp [hr, ht, hw, hh, hd, hc, hnv, hfx, hp]

theorem render_dirty_clears (env : VGEnv) (s : VGState)
    (hr : s.provider_ready = true) (ht : env.has_target = true) (hw : env.target_width ≠ 0)
    (hh : env.target_height ≠ 0) (hd : s.dirty = true) (hc : env.capture_begin_ok = true)
    (hp : env.process_throws = false) :
    (video_render env s).1.dirty = false ∧
    (video_render env s).2.countP (fun e => e == VGEvent.adapterProcess) ≤ 1 ∧
    (video_render env s).2.countP (fun e => e == VGEvent.captureDraw) ≤ 1 := by
  simp only [video_render]
  simp only [hr, ht, hw, hh, hd, hc, hp]
  repeat' split
  all_goals simp_all [List.countP_cons]

end Helpers

section ClaimInputs

/-- A benign environment: NVIDIA available, nothing throws, target present and
nonzero, capture succeeds. -/
def envOK : VGEnv where
  nvidia_available := true
  load_throws := false
  set_mode_throws := false
  has_target := true
  has_parent := true
  target_width := 4
  target_height := 4
  capture_begin_ok := true
  process_throws := false

/-- Reachable state for the C1 counterexample: construct with AUTOMATIC
settings, update to NVIDIA (spawning a switch task), run the task to
completion (the provider is now loaded and ready). -/
def c1_sA : VGState :=
  (vgStep envOK (VGOp.updateOp ⟨VGProvider.NVIDIA_GREENSCREEN, 2⟩)
    (initState ⟨VGProvider.AUTOMATIC, 2⟩)).1

def c1_sB : VGState := (vgStep envOK VGOp.runTaskOp c1_sA).1

/-- Reachable states for the C8 counterexample: same prefix as C1, then a
switch request targeting the INVALID sentinel. -/
def c8_sA : VGState :=
  (vgStep envOK (VGOp.updateOp ⟨VGProvider.NVIDIA_GREENSCREEN, 1⟩)
    (initState ⟨VGProvider.AUTOMATIC, 1⟩)).1

def c8_sB : VGState := (vgStep envOK VGOp.runTaskOp c8_sA).1

def c8_sC : VGState := (vgStep envOK (VGOp.switchProviderOp VGProvider.INVALID) c8_sB).1

/-- A ready NVIDIA state used by several witnesses. -/
def readyState : VGState :=
  { initState ⟨VGProvider.NVIDIA_GREENSCREEN, 0⟩ with
      provider := VGProvider.NVIDIA_GREENSCREEN
      provider_ui := VGProvider.NVIDIA_GREENSCREEN
      provider_ready := true
      nvidia_fx := true }

end ClaimInputs

section Claims

/-- C9: requesting a switch to the provider kind that is already
`current_provider` is a no-op: `switch_provider` returns without spawning a
switch task (no events, no pool change), and `current_provider`,
`provider_ready` and the in-flight task are all left unchanged. -/
theorem C9_switch_to_current_is_noop (p : VGProvider) (s : VGState)
    (h : p = s.provider) : switch_provider p s = (s, []) := by
  simp only [switch_provider, if_pos h]

/-- Witness for C9 at a concrete ready NVIDIA state. -/
theorem C9_witness :
    VGProvider.NVIDIA_GREENSCREEN = readyState.provider ∧
    switch_provider VGProvider.NVIDIA_GREENSCREEN readyState = (readyState, []) :=
  ⟨by decide, C9_switch_to_current_is_noop VGProvider.NVIDIA_GREENSCREEN readyState (by decide)⟩

/-- C5: a render call is skipped (the frame passes through unmodified, state
untouched) whenever the provider is not ready, or there is neither target nor
parent, or the target's base width or height is zero — in particular a
zero-dimension frame yields pass-through regardless of provider readiness. -/
theorem C5_render_skip_conditions (env : VGEnv) (s : VGState)
    (h : s.provider_ready = false ∨ (env.has_target || env.has_parent) = false
       ∨ (if env.has_target then env.target_width else 0) = 0
       ∨ (if env.has_target then env.target_height else 0) = 0) :
    video_render env s = (s, [VGEvent.skipFilter]) := by
  simp only [video_render]
  rcases h with h | h | h | h <;> simp [h]

/-- Witness for C5: zero target width with a fully ready provider still
passes the frame through. -/
theorem C5_witness :
    (if ({ envOK with target_width := 0 } : VGEnv).has_target
        then ({ envOK with target_width := 0 } : VGEnv).target_width else 0) = 0 ∧
    readyState.provider_ready = true ∧
    video_render { envOK with target_width := 0 } readyState =
      (readyState, [VGEvent.skipFilter]) :=
  ⟨by decide, by decide,
   C5_render_skip_conditions { envOK with target_width := 0 } readyState
     (Or.inr (Or.inr (Or.inl (by decide))))⟩

/-- C2: on every reachable state, at most one switch task of the instance is
in the threadpool; moreover a switch request that actually switches first
empties the instance's task queue (dequeue + await of any previous task) and
only then pushes exactly the one replacement task. -/
theorem C2_at_most_one_switch_task (d : VGSettings) (s : VGState)
    (h : VGReachable d s) :
    s.pool.length ≤ 1 ∧
    ∀ p, p ≠ s.provider →
      (switch_provider p s).1.pool = [(s.next_task_id, s.provider)] := by
  obtain ⟨h1, h2⟩ := reachable_poolInv d s h
  refine ⟨h1, ?_⟩
  intro p hp
  simp only [switch_provider, if_neg hp]
  cases ht : s.provider_task with
  | some id =>
    have hf := filter_handle_nil h2 ht
    simp only [ht]
    simp [hf]
  | none =>
    have hf := pool_nil_of_no_handle h2 ht
    simp only [ht]
    simp [hf]

/-- Witness for C2 at the freshly constructed instance. -/
theorem C2_witness :
    (initState ⟨VGProvider.AUTOMATIC, 0⟩).pool.length ≤ 1 ∧
    (switch_provider VGProvider.NVIDIA_GREENSCREEN (initState ⟨VGProvider.AUTOMATIC, 0⟩)).1.pool =
      [((initState ⟨VGProvider.AUTOMATIC, 0⟩).next_task_id,
        (initState ⟨VGProvider.AUTOMATIC, 0⟩).provider)] :=
  ⟨(C2_at_most_one_switch_task ⟨VGProvider.AUTOMATIC, 0⟩ (initState ⟨VGProvider.AUTOMATIC, 0⟩)
      VGReachable.init).1,
   (C2_at_most_one_switch_task ⟨VGProvider.AUTOMATIC, 0⟩ (initState ⟨VGProvider.AUTOMATIC, 0⟩)
      VGReachable.init).2 VGProvider.NVIDIA_GREENSCREEN (by decide)⟩

/-- C1 counterexample: from the reachable state `c1_sB` (NVIDIA loaded and
ready), a switch request to a different kind returns from `switch_provider`
with `provider_ready` still true and the switch task still queued (teardown
has not begun), contradicting "provider_ready is set to false before the
switch request call returns". -/
theorem C1_counterexample :
    VGReachable ⟨VGProvider.AUTOMATIC, 2⟩ c1_sB ∧
    VGProvider.AUTOMATIC ≠ c1_sB.provider ∧
    (switch_provider VGProvider.AUTOMATIC c1_sB).1.provider_ready = true ∧
    (switch_provider VGProvider.AUTOMATIC c1_sB).1.pool ≠ [] :=
  ⟨VGReachable.step envOK VGOp.runTaskOp c1_sA
     (VGReachable.step envOK (VGOp.updateOp ⟨VGProvider.NVIDIA_GREENSCREEN, 2⟩)
       (initState ⟨VGProvider.AUTOMATIC, 2⟩) VGReachable.init),
   by decide, by decide, by decide⟩

/-- C1 amended: `switch_provider` itself leaves `provider_ready` unchanged;
`provider_ready` is instead cleared as the first action of the background
switch task, before the task acquires the provider lock and begins tearing
down the old provider — the task's entire behaviour factors through the
not-ready state `mark_unready s`.  Between the switch request returning and
the task starting, `provider_ready` keeps its previous value. -/
theorem C1_amended_ready_cleared_by_task_not_by_request
    (p spd : VGProvider) (env : VGEnv) (s : VGState) :
    (switch_provider p s).1.provider_ready = s.provider_ready ∧
    task_switch_provider env spd s = task_switch_provider env spd (mark_unready s) ∧
    (mark_unready s).provider_ready = false :=
  ⟨(switch_fields p s).1, rfl, rfl⟩

/-- C8 counterexample: the reachable state `c8_sB` (NVIDIA ready) satisfies
the invariant, but the operation `switch_provider INVALID` produces the
reachable state `c8_sC` with `current_provider = INVALID` and
`provider_ready = true`, so the invariant is not preserved by every
operation. -/
theorem C8_counterexample :
    VGReachable ⟨VGProvider.AUTOMATIC, 1⟩ c8_sC ∧
    (c8_sB.provider = VGProvider.INVALID → c8_sB.provider_ready = false) ∧
    c8_sC.provider = VGProvider.INVALID ∧
    c8_sC.provider_ready = true :=
  ⟨VGReachable.step envOK (VGOp.switchProviderOp VGProvider.INVALID) c8_sB
     (VGReachable.step envOK VGOp.runTaskOp c8_sA
       (VGReachable.step envOK (VGOp.updateOp ⟨VGProvider.NVIDIA_GREENSCREEN, 1⟩)
         (initState ⟨VGProvider.AUTOMATIC, 1⟩) VGReachable.init)),
   by decide, by decide, by decide⟩

/-- C8 amended: the invariant `current_provider = INVALID →
provider_ready = false` holds in the initial state and is preserved by every
operation provided no switch request targets the INVALID sentinel (neither a
direct `switch_provider INVALID` nor an `update` whose stored settings select
the INVALID kind). -/
theorem C8_amended_invalid_implies_not_ready (d : VGSettings) (s : VGState)
    (h : VGReachableB d s) :
    s.provider = VGProvider.INVALID → s.provider_ready = false :=
  fun hp => (reachableB_invalidInv d s h hp).1

/-- Witness for C8 amended at the freshly constructed instance, where the
antecedent actually holds. -/
theorem C8_witness :
    VGReachableB ⟨VGProvider.AUTOMATIC, 0⟩ (initState ⟨VGProvider.AUTOMATIC, 0⟩) ∧
    (initState ⟨VGProvider.AUTOMATIC, 0⟩).provider = VGProvider.INVALID ∧
    (initState ⟨VGProvider.AUTOMATIC, 0⟩).provider_ready = false :=
  ⟨VGReachableB.init, by decide,
   C8_amended_invalid_implies_not_ready ⟨VGProvider.AUTOMATIC, 0⟩
     (initState ⟨VGProvider.AUTOMATIC, 0⟩) VGReachableB.init (by decide)⟩

/-- C3: in every execution of the background switch task, every adapter
unload event precedes every adapter load event; any configuration re-apply
uses the settings stored in the state at task-run time (the task payload
carries only the old provider kind, no settings snapshot); and on a
successful switch to NVIDIA the trace is exactly unload-of-old (when the old
kind had an adapter), then load, then configure with the run-time settings. -/
theorem C3_task_unloads_then_loads_then_configures
    (env : VGEnv) (spd : VGProvider) (s : VGState) :
    unloadBeforeLoad (task_switch_provider env spd s).2 = true ∧
    (∀ d2, VGEvent.configure d2 ∈ (task_switch_provider env spd s).2 → d2 = s.settings) ∧
    (s.provider = VGProvider.NVIDIA_GREENSCREEN → env.load_throws = false →
      env.set_mode_throws = false →
      (task_switch_provider env spd s).2 =
        (if spd = VGProvider.NVIDIA_GREENSCREEN
          then [VGEvent.unload VGProvider.NVIDIA_GREENSCREEN] else [])
          ++ [VGEvent.load VGProvider.NVIDIA_GREENSCREEN, VGEvent.configure s.settings]) := by
  cases hspd : spd <;> cases hp : s.provider <;>
    cases hl : env.load_throws <;> cases hm : env.set_mode_throws <;>
    simp_all [task_switch_provider, task_locked_body, mark_unready, nvvfxgs_unload,
      nvvfxgs_update, unloadBeforeLoad, hasUnloadEv]

/-- Witness for C3: a successful switch task whose old kind is NVIDIA and
whose trace is exactly unload, load, configure in that order. -/
theorem C3_witness :
    readyState.provider = VGProvider.NVIDIA_GREENSCREEN ∧
    unloadBeforeLoad (task_switch_provider envOK VGProvider.NVIDIA_GREENSCREEN readyState).2
      = true ∧
    (task_switch_provider envOK VGProvider.NVIDIA_GREENSCREEN readyState).2 =
      [VGEvent.unload VGProvider.NVIDIA_GREENSCREEN, VGEvent.load VGProvider.NVIDIA_GREENSCREEN,
       VGEvent.configure readyState.settings] :=
  ⟨by decide,
   (C3_task_unloads_then_loads_then_configures envOK VGProvider.NVIDIA_GREENSCREEN readyState).1,
   by
    have h := (C3_task_unloads_then_loads_then_configures envOK VGProvider.NVIDIA_GREENSCREEN
      readyState).2.2 (by decide) rfl rfl
    simpa using h⟩

/-- C4: the background switch task marks the provider ready exactly when every
step of its try-block succeeded (`task_success`); when a step throws, the
task logs the error and leaves `provider_ready = false`; and the task neither
queues a replacement task nor touches the task handle — no automatic retry. -/
theorem C4_task_failure_leaves_not_ready (env : VGEnv) (spd : VGProvider) (s : VGState) :
    ((task_switch_provider env spd s).1.provider_ready = task_success env s) ∧
    (task_success env s = false →
      VGEvent.logError ∈ (task_switch_provider env spd s).2 ∧
      (task_switch_provider env spd s).1.provider_ready = false) ∧
    (task_switch_provider env spd s).1.pool = s.pool ∧
    (task_switch_provider env spd s).1.provider_task = s.provider_task := by
  refine ⟨?_, ?_, (task_fields env spd s).1, (task_fields env spd s).2.1⟩ <;>
    cases hspd : spd <;> cases hp : s.provider <;>
    cases hl : env.load_throws <;> cases hm : env.set_mode_throws <;>
    simp_all [task_switch_provider, task_locked_body, mark_unready, nvvfxgs_unload,
      nvvfxgs_update, task_success]

/-- Witness for C4: an NVIDIA load that throws leaves the provider not ready
and logs the error. -/
theorem C4_witness :
    task_success { envOK with load_throws := true } readyState = false ∧
    VGEvent.logError ∈
      (task_switch_provider { envOK with load_throws := true }
        VGProvider.NVIDIA_GREENSCREEN readyState).2 ∧
    (task_switch_provider { envOK with load_throws := true }
        VGProvider.NVIDIA_GREENSCREEN readyState).1.provider_ready = false :=
  ⟨by decide,
   ((C4_task_failure_leaves_not_ready { envOK with load_throws := true }
      VGProvider.NVIDIA_GREENSCREEN readyState).2.1 (by decide)).1,
   ((C4_task_failure_leaves_not_ready { envOK with load_throws := true }
      VGProvider.NVIDIA_GREENSCREEN readyState).2.1 (by decide)).2⟩

/-- C6: every video tick sets the dirty flag unconditionally, and two render
calls with no intervening tick perform capture/process at most once in total:
a first non-skipped render clears `dirty`, so the second render performs no
capture and no process, returns the state unchanged (reusing the cached
color/alpha buffers), and still performs the composite draw. -/
theorem C6_tick_dirties_render_recomputes_once :
    (∀ env s, (video_tick env s).1.dirty = true) ∧
    (∀ env s, s.provider_ready = true → env.has_target = true →
      env.target_width ≠ 0 → env.target_height ≠ 0 →
      env.capture_begin_ok = true → env.process_throws = false →
      ((video_render env s).1.dirty = false ∧
       video_render env (video_render env s).1 =
         ((video_render env s).1, [VGEvent.compositeDraw]) ∧
       ((video_render env s).2 ++ (video_render env (video_render env s).1).2).countP
          (fun e => e == VGEvent.adapterProcess) ≤ 1 ∧
       ((video_render env s).2 ++ (video_render env (video_render env s).1).2).countP
          (fun e => e == VGEvent.captureDraw) ≤ 1)) := by
  constructor
  · intro env s
    exact (tick_fields env s).2.2.2.2.2.2
  · intro env s hr ht hw hh hc hp
    by_cases hd : s.dirty = true
    · have h1 := render_dirty_clears env s hr ht hw hh hd hc hp
      have hr1 : (video_render env s).1.provider_ready = true := by
        rw [(render_fields env s).2.2.2.1]
        exact hr
      have h2 := render_not_dirty env (video_render env s).1 hr1 ht hw hh h1.1
      refine ⟨h1.1, h2, ?_, ?_⟩
      · rw [List.countP_append, h2]
        simpa using h1.2.1
      · rw [List.countP_append, h2]
        simpa using h1.2.2
    · have hd2 : s.dirty = false := by simpa using hd
      have h1 := render_not_dirty env s hr ht hw hh hd2
      have hfst : (video_render env s).1 = s := by rw [h1]
      refine ⟨by rw [hfst]; exact hd2, by rw [hfst]; exact h1, ?_, ?_⟩
      · rw [List.countP_append, hfst, h1]
        simp
      · rw [List.countP_append, hfst, h1]
        simp

/-- Witness for C6 at a ready NVIDIA state in a benign environment. -/
theorem C6_witness :
    (video_tick envOK readyState).1.dirty = true ∧
    readyState.provider_ready = true ∧
    video_render envOK (video_render envOK readyState).1 =
      ((video_render envOK readyState).1, [VGEvent.compositeDraw]) :=
  ⟨C6_tick_dirties_render_recomputes_once.1 envOK readyState, by decide,
   (C6_tick_dirties_render_recomputes_once.2 envOK readyState (by decide) (by decide)
     (by decide) (by decide) (by decide) (by decide)).2.1⟩

/-- C7: when the provider's `process` throws during a dirty render, that frame
is skipped entirely (no composite, no completed process) and `dirty` stays
true, so the render after the next tick retries capture and process and, when
`process` then succeeds, completes with a composite draw and clears `dirty` —
the failure is transient. -/
theorem C7_process_throw_is_transient (env env2 : VGEnv) (s : VGState)
    (hr : s.provider_ready = true) (ht : env.has_target = true)
    (hw : env.target_width ≠ 0) (hh : env.target_height ≠ 0)
    (hd : s.dirty = true) (hc : env.capture_begin_ok = true)
    (hnv : s.provider = VGProvider.NVIDIA_GREENSCREEN) (hfx : s.nvidia_fx = true)
    (hthrow : env.process_throws = true)
    (ht2 : env2.has_target = true) (hw2 : env2.target_width ≠ 0)
    (hh2 : env2.target_height ≠ 0) (hc2 : env2.capture_begin_ok = true)
    (hp2 : env2.process_throws = false) :
    (video_render env s).2 = [VGEvent.captureDraw, VGEvent.skipFilter] ∧
    (video_render env s).1.dirty = true ∧
    VGEvent.compositeDraw ∉ (video_render env s).2 ∧
    VGEvent.adapterProcess ∉ (video_render env s).2 ∧
    (video_render env2 (video_tick env2 (video_render env s).1).1).2 =
      [VGEvent.captureDraw, VGEvent.adapterProcess, VGEvent.compositeDraw] ∧
    (video_render env2 (video_tick env2 (video_render env s).1).1).1.dirty = false := by
  have h1 : video_render env s =
      ({ s with output_color := Tex.inputTex, output_alpha := Tex.inputTex },
       [VGEvent.captureDraw, VGEvent.skipFilter]) := by
    simp only [video_render]
    simp [hr, ht, hw, hh, hd, hc, hnv, hfx, hthrow]
  have tf := tick_fields env2 (video_render env s).1
  have rf := render_fields env s
  have hr2 : (video_tick env2 (video_render env s).1).1.provider_ready = true := by
    rw [tf.2.2.2.1, rf.2.2.2.1]
    exact hr
  have hnv2 : (video_tick env2 (video_render env s).1).1.provider
      = VGProvider.NVIDIA_GREENSCREEN := by
    rw [tf.2.2.1, rf.2.2.1]
    exact hnv
  have hfx2 : (video_tick env2 (video_render env s).1).1.nvidia_fx = true := by
    rw [tf.2.2.2.2.1, rf.2.2.2.2.1]
    exact hfx
  have hd2 : (video_tick env2 (video_render env s).1).1.dirty = true := tf.2.2.2.2.2.2
  have h3 := render_dirty_success_nvidia env2 (video_tick env2 (video_render env s).1).1
    hr2 ht2 hw2 hh2 hd2 hc2 hnv2 hfx2 hp2
  refine ⟨by rw [h1], by rw [h1]; exact hd, by rw [h1]; simp, by rw [h1]; simp, h3.1, h3.2⟩

/-- Witness for C7: a throwing process on a ready state, then a tick and a
successful render. -/
theorem C7_witness :
    readyState.dirty = true ∧
    (video_render { envOK with process_throws := true } readyState).2 =
      [VGEvent.captureDraw, VGEvent.skipFilter] ∧
    (video_render { envOK with process_throws := true } readyState).1.dirty = true ∧
    (video_render envOK
      (video_tick envOK
        (video_render { envOK with process_throws := true } readyState).1).1).1.dirty
      = false :=
  ⟨by decide,
   (C7_process_throw_is_transient { envOK with process_throws := true } envOK readyState
     (by decide) (by decide) (by decide) (by decide) (by decide) (by decide) (by decide)
     (by decide) (by decide) (by decide) (by decide) (by decide) (by decide) (by decide)).1,
   (C7_process_throw_is_transient { envOK with process_throws := true } envOK readyState
     (by decide) (by decide) (by decide) (by decide) (by decide) (by decide) (by decide)
     (by decide) (by decide) (by decide) (by decide) (by decide) (by decide) (by decide)).2.1,
   (C7_process_throw_is_transient { envOK with process_throws := true } envOK readyState
     (by decide) (by decide) (by decide) (by decide) (by decide) (by decide) (by decide)
     (by decide) (by decide) (by decide) (by decide) (by decide) (by decide) (by decide)).2.2.2.2.2⟩

/-- C10: when `obs_source_process_filter_begin` fails during a dirty render,
the frame is passed through unmodified with the whole state unchanged (the
dirty flag stays true and the cached color/alpha references are untouched),
and a following render with a succeeding capture retries the capture. -/
theorem C10_capture_begin_failure_passthrough (env env2 : VGEnv) (s : VGState)
    (hr : s.provider_ready = true) (ht : env.has_target = true)
    (hw : env.target_width ≠ 0) (hh : env.target_height ≠ 0)
    (hd : s.dirty = true) (hc : env.capture_begin_ok = false)
    (ht2 : env2.has_target = true) (hw2 : env2.target_width ≠ 0)
    (hh2 : env2.target_height ≠ 0) (hc2 : env2.capture_begin_ok = true) :
    video_render env s = (s, [VGEvent.skipFilter]) ∧
    VGEvent.captureDraw ∈ (video_render env2 s).2 := by
  constructor
  · simp only [video_render]
    simp [hr, ht, hw, hh, hd, hc]
  · cases hp : s.provider <;> cases hfx : s.nvidia_fx <;>
      cases hpt : env2.process_throws <;>
      simp_all [video_render]

/-- Witness for C10: a failing capture begin on a ready dirty state leaves the
state untouched; the next render with a working capture draws the capture. -/
theorem C10_witness :
    readyState.dirty = true ∧
    video_render { envOK with capture_begin_ok := false } readyState =
      (readyState, [VGEvent.skipFilter]) ∧
    VGEvent.captureDraw ∈ (video_render envOK readyState).2 :=
  ⟨by decide,
   (C10_capture_begin_failure_passthrough { envOK with capture_begin_ok := false } envOK
     readyState (by decide) (by decide) (by decide) (by decide) (by decide) (by decide)
     (by decide) (by decide) (by decide) (by decide)).1,
   (C10_capture_begin_failure_passthrough { envOK with capture_begin_ok := false } envOK
     readyState (by decide) (by decide) (by decide) (by decide) (by decide) (by decide)
     (by decide) (by decide) (by decide) (by decide)).2⟩

end Claims

end VirtualGreenscreen
